import Mathlib

/-!
Verification model of `cli.cjs` from hass-airplus-cloud.

The JavaScript source is shallowly embedded: pure helpers become Lean
functions over `Nat` byte lists and `String`s; the effectful `login` /
`refreshToken` / web-request flows become deterministic functions over an
explicit environment (the oracle responses of the network and the user)
that return a result together with the trace of externally visible events
and the final state of the credential file.  JavaScript numbers that hold
epoch milliseconds are modelled as `Int`; byte buffers as `List Nat` with
each entry a byte value.
-/

namespace AirCli

/-! ### Base64 / base64url (models the Node `Buffer.toString` base64 mode
followed by the replacements of the `base64URLEncode` source helper) -/

/-- The standard base64 alphabet, as a list of 64 characters. -/
def b64chars : List Char :=
  "ABCDEFGHIJKLMNOPQRSTUVWXYZabcdefghijklmnopqrstuvwxyz0123456789+/".data

/-- Index into the base64 alphabet (total on `Nat` via `% 64`;
all call sites pass values below 64). -/
def tbl (n : Nat) : Char := b64chars.getD (n % 64) 'A'

/-- Core base64 encoding of a byte list, processing three bytes at a time,
with `=` padding — the semantics of the Node base64 encoder. -/
def b64core : List Nat → List Char
  | [] => []
  | [a] => [tbl (a >>> 2), tbl ((a &&& 3) <<< 4), '=', '=']
  | [a, b] => [tbl (a >>> 2), tbl (((a &&& 3) <<< 4) ||| (b >>> 4)),
               tbl ((b &&& 15) <<< 2), '=']
  | a :: b :: c :: rest =>
      tbl (a >>> 2) :: tbl (((a &&& 3) <<< 4) ||| (b >>> 4)) ::
      tbl (((b &&& 15) <<< 2) ||| (c >>> 6)) :: tbl (c &&& 63) :: b64core rest

/-- The character replacement inside the `base64URLEncode` source helper:
`+` → `-` and `/` → `_`. -/
def b64urlRepl (c : Char) : Char :=
  if c = '+' then '-' else if c = '/' then '_' else c

/-- Models `base64URLEncode` from the source: base64 the bytes, replace `+`/`/`,
strip all `=` padding. -/
def base64URLEncode (bytes : List Nat) : String :=
  String.mk (((b64core bytes).map b64urlRepl).filter (fun c => c ≠ '='))

/-! ### SHA-256 (models the `crypto.createHash` sha256 digest) -/

/-- Truncation to a 32-bit word. -/
def w32 (n : Nat) : Nat := n % 4294967296

/-- Right rotation of a 32-bit word by `n` bits. -/
def rotr32 (n x : Nat) : Nat := w32 ((x >>> n) ||| (x <<< (32 - n)))

def shaCh (x y z : Nat) : Nat := (x &&& y) ^^^ ((x ^^^ 4294967295) &&& z)

def shaMaj (x y z : Nat) : Nat := (x &&& y) ^^^ (x &&& z) ^^^ (y &&& z)

def bigSigma0 (x : Nat) : Nat := rotr32 2 x ^^^ rotr32 13 x ^^^ rotr32 22 x

def bigSigma1 (x : Nat) : Nat := rotr32 6 x ^^^ rotr32 11 x ^^^ rotr32 25 x

def smallSigma0 (x : Nat) : Nat := rotr32 7 x ^^^ rotr32 18 x ^^^ (x >>> 3)

def smallSigma1 (x : Nat) : Nat := rotr32 17 x ^^^ rotr32 19 x ^^^ (x >>> 10)

/-- The 64 SHA-256 round constants. -/
def shaK : List Nat :=
  [1116352408, 1899447441, 3049323471, 3921009573, 961987163,
   1508970993, 2453635748, 2870763221, 3624381080, 310598401,
   607225278, 1426881987, 1925078388, 2162078206, 2614888103,
   3248222580, 3835390401, 4022224774, 264347078, 604807628,
   770255983, 1249150122, 1555081692, 1996064986, 2554220882,
   2821834349, 2952996808, 3210313671, 3336571891, 3584528711,
   113926993, 338241895, 666307205, 773529912, 1294757372,
   1396182291, 1695183700, 1986661051, 2177026350, 2456956037,
   2730485921, 2820302411, 3259730800, 3345764771, 3516065817,
   3600352804, 4094571909, 275423344, 430227734, 506948616,
   659060556, 883997877, 958139571, 1322822218, 1537002063,
   1747873779, 1955562222, 2024104815, 2227730452, 2361852424,
   2428436474, 2756734187, 3204031479, 3329325298]

/-- The initial SHA-256 hash state. -/
def shaH0 : List Nat :=
  [1779033703, 3144134277, 1013904242, 2773480762,
   1359893119, 2600822924, 528734635, 1541459225]

/-- Big-endian 8-byte encoding of a natural number. -/
def be64bytes (n : Nat) : List Nat :=
  [(n >>> 56) % 256, (n >>> 48) % 256, (n >>> 40) % 256, (n >>> 32) % 256,
   (n >>> 24) % 256, (n >>> 16) % 256, (n >>> 8) % 256, n % 256]

/-- SHA-256 message padding: append `0x80`, zeros, and the 64-bit
big-endian bit length, reaching a multiple of 64 bytes. -/
def sha256pad (m : List Nat) : List Nat :=
  let L := m.length
  let zeros := (64 - (L + 9) % 64) % 64
  m ++ 0x80 :: (List.replicate zeros 0 ++ be64bytes (8 * L))

/-- Pack bytes into big-endian 32-bit words, four bytes per word. -/
def toWords : List Nat → List Nat
  | a :: b :: c :: d :: rest =>
      (((a * 256 + b) * 256 + c) * 256 + d) :: toWords rest
  | _ => []

/-- One extension step of the SHA-256 message schedule. -/
def extendStep (ws : List Nat) : List Nat :=
  ws ++ [w32 (smallSigma1 (ws.getD (ws.length - 2) 0) +
              ws.getD (ws.length - 7) 0 +
              smallSigma0 (ws.getD (ws.length - 15) 0) +
              ws.getD (ws.length - 16) 0)]

/-- Iterate the schedule extension `n` times (48 times in SHA-256). -/
def extendN : Nat → List Nat → List Nat
  | 0, ws => ws
  | n + 1, ws => extendN n (extendStep ws)

/-- One SHA-256 compression round on the eight-word working state. -/
def shaRound (st : List Nat) (wk : Nat × Nat) : List Nat :=
  match st with
  | [a, b, c, d, e, f, g, h] =>
      let t1 := w32 (h + bigSigma1 e + shaCh e f g + wk.2 + wk.1)
      let t2 := w32 (bigSigma0 a + shaMaj a b c)
      [w32 (t1 + t2), a, b, c, w32 (d + t1), e, f, g]
  | other => other

/-- Compress one 64-byte block into the hash state. -/
def shaCompress (hs : List Nat) (block : List Nat) : List Nat :=
  let ws := extendN 48 (toWords block)
  let st := (ws.zip shaK).foldl shaRound hs
  (hs.zip st).map (fun p => w32 (p.1 + p.2))

/-- Split a byte list into 64-byte blocks (structural recursion on a fuel
argument bounded by the list length; each step consumes at least one
element). -/
def chunks64Go : Nat → List Nat → List (List Nat)
  | 0, _ => []
  | _, [] => []
  | fuel + 1, x :: xs => ((x :: xs).take 64) :: chunks64Go fuel ((x :: xs).drop 64)

def chunks64 (l : List Nat) : List (List Nat) := chunks64Go l.length l

/-- Serialise a 32-bit word to four big-endian bytes. -/
def wordBytes (w : Nat) : List Nat :=
  [(w >>> 24) % 256, (w >>> 16) % 256, (w >>> 8) % 256, w % 256]

/-- Full SHA-256 of a byte list, yielding the 32 digest bytes. -/
def sha256 (msg : List Nat) : List Nat :=
  ((chunks64 (sha256pad msg)).foldl shaCompress shaH0).foldr
    (fun w acc => wordBytes w ++ acc) []

/-- UTF-8 bytes of an ASCII string (all strings hashed by the source are
base64url, hence ASCII, where code points and bytes coincide). -/
def strBytes (s : String) : List Nat := s.data.map Char.toNat

/-! ### Configuration (the `CONFIG` object, with the `_mj` de-obfuscation
helper embedded verbatim) -/

/-- The `_mj` helper of the source: XOR each code with `0x55` and build a
string — models `String.fromCharCode`. -/
def _mj (arr : List Nat) : String :=
  String.mk (arr.map (fun c => Char.ofNat (c ^^^ 0x55)))

def clientId : String :=
  _mj [120, 13, 38, 30, 98, 26, 99, 60, 16, 62, 25, 56, 57, 98, 98, 44, 17,
       18, 17, 0, 60, 101, 62, 32]

def clientSecret : String :=
  _mj [3, 102, 97, 23, 57, 20, 61, 32, 60, 57, 28, 49, 26, 45, 101, 28, 56,
       58, 100, 99, 39, 18, 4, 103]

def redirectUri : String := "com.philips.air://loginredirect"

def scopeConfig : String :=
  "openid email profile address DI.Account.read DI.AccountProfile.read DI.AccountProfile.write DI.AccountGeneralConsent.read DI.AccountGeneralConsent.write DI.GeneralConsent.read subscriptions profile_extended consents DI.AccountSubscription.read DI.AccountSubscription.write"

/-! ### PKCE helpers -/

/-- Models `generateVerifier`: base64url of 32 random bytes (the randomness is the
explicit argument). -/
def generateVerifier (rnd : List Nat) : String := base64URLEncode rnd

/-- Models `generateChallenge`: base64url of the SHA-256 digest of the verifier. -/
def generateChallenge (verifier : String) : String :=
  base64URLEncode (sha256 (strBytes verifier))

/-- Hex alphabet lookup (total on `Nat` via `% 16`). -/
def hexChar (n : Nat) : Char := "0123456789abcdef".data.getD (n % 16) '0'

/-- The Node `Buffer.toString` hex mode: two lowercase hex digits per byte. -/
def toHex (bytes : List Nat) : String :=
  String.mk (bytes.foldr (fun b acc => hexChar (b / 16) :: hexChar (b % 16) :: acc) [])

/-- The split-at-dot head on a character list: the prefix before the first dot. -/
def splitOnDot : List Char → List Char
  | [] => []
  | c :: cs => if c = '.' then [] else c :: splitOnDot cs

/-- Models `getTimestamp`: the ISO clock string truncated at its first dot,
with a trailing Z appended, and
ISO string produced by the clock passed in explicitly. -/
def getTimestamp (isoNow : String) : String :=
  String.mk (splitOnDot isoNow.data ++ ['Z'])

/-! ### Token management (`saveTokens` / `loadTokens`) -/

/-- A persisted credential bundle: the fields of the provider token
response that the program reads, plus the derived `expires_at`.  Optional
fields model JSON fields that a response may omit (`none` =
`undefined`). -/
structure Tokens where
  access_token : String
  id_token : Option String
  refresh_token : Option String
  expires_in : Option Int
  expires_at : Int
  deriving Repr, DecidableEq

/-- JavaScript `x || d` on an optional number: `undefined` and `0` are
falsy and yield the default. -/
def jsOrDefault (x : Option Int) (d : Int) : Int :=
  match x with
  | none => d
  | some v => if v = 0 then d else v

/-- JavaScript truthiness of an optional string: `undefined` and `""` are
falsy. -/
def jsStrTruthy : Option String → Bool
  | none => false
  | some s => s ≠ ""

/-- Models `saveTokens`, pure part: set `expires_at` to
`Date.now() + (expires_in || 3600) * 1000` on the response object. -/
def saveTokens (now : Int) (tokens : Tokens) : Tokens :=
  { tokens with expires_at := now + jsOrDefault tokens.expires_in 3600 * 1000 }

/-- Models `saveTokens` with its file effect: `writeFileSync` replaces the whole
credential file with the (mutated) response object, and the mutated object
is what the caller goes on to return. -/
def saveTokensFs (now : Int) (tokens : Tokens) (_fs : Option Tokens) :
    Tokens × Option Tokens :=
  let saved := saveTokens now tokens
  (saved, some saved)

/-- Models `loadTokens`: return the parsed file content when the file exists,
`null` otherwise.  The file state carries the parsed bundle. -/
def loadTokens (fs : Option Tokens) : Option Tokens := fs

/-! ### Redirect-URL parsing (the paste-handling inside `login`).
All string surgery is carried out on `List Char` with structural
recursions that mirror the JavaScript operations. -/

/-- Models the string trim method: strip leading and trailing whitespace. -/
def trimL (l : List Char) : List Char :=
  ((l.dropWhile Char.isWhitespace).reverse.dropWhile Char.isWhitespace).reverse

/-- A global-regex replace with the empty string: remove every occurrence
of a character. -/
def removeAllChar (q : Char) (l : List Char) : List Char :=
  l.filter (fun c => c ≠ q)

/-- Whether `pat` is a prefix of `l`. -/
def isPrefixL : List Char → List Char → Bool
  | [], _ => true
  | _ :: _, [] => false
  | p :: ps, c :: cs => p = c && isPrefixL ps cs

/-- Models a replace with a plain-string pattern: substitute only the
first occurrence (JavaScript semantics; all call sites pass a non-empty
pattern). -/
def replaceFirst (pat rep : List Char) : List Char → List Char
  | [] => []
  | c :: cs =>
      if isPrefixL pat (c :: cs) then rep ++ (c :: cs).drop pat.length
      else c :: replaceFirst pat rep cs

/-- The segment before the first occurrence of a character. -/
def beforeFirst (q : Char) : List Char → List Char
  | [] => []
  | c :: cs => if c = q then [] else c :: beforeFirst q cs

/-- The segment after the first occurrence of a character, when present. -/
def afterFirst (q : Char) : List Char → Option (List Char)
  | [] => none
  | c :: cs => if c = q then some cs else afterFirst q cs

/-- Split at every occurrence of a character. -/
def splitOnChar (q : Char) : List Char → List (List Char)
  | [] => [[]]
  | c :: cs =>
      let r := splitOnChar q cs
      if c = q then [] :: r
      else
        match r with
        | [] => [[c]]
        | x :: xs => (c :: x) :: xs

/-- Interleave a character between segments (inverse of `splitOnChar`). -/
def joinWith (q : Char) : List (List Char) → List Char
  | [] => []
  | [x] => x
  | x :: y :: xs => x ++ q :: joinWith q (y :: xs)

/-- Models the URL search-parameter getter: the value of the first `key=value`
pair of the query string — the part between the first `?` and the first
`#` (percent-decoding is not modelled; the claims checked here only
depend on the presence or absence of a parameter). -/
def getSearchParam (url key : List Char) : Option (List Char) :=
  match afterFirst '?' (beforeFirst '#' url) with
  | none => none
  | some q =>
      ((splitOnChar '&' q).filterMap (fun kv =>
        match splitOnChar '=' kv with
        | [] => none
        | k :: vs => if k = key then some (joinWith '=' vs) else none)).head?

/-- Models the handling of the pasted redirect URL in the source: trim,
strip single
and double quotes, rewrite the custom scheme to `http://dummy/`, then read
the `code` query parameter; the subsequent `if (!code)` check makes an
empty string count as missing. -/
def extractCode (pastedUrl : String) : Option String :=
  let clean := removeAllChar (Char.ofNat 34)
    (removeAllChar (Char.ofNat 39) (trimL pastedUrl.data))
  let u := replaceFirst "com.philips.air://".data "http://dummy/".data clean
  match getSearchParam u "code".data with
  | none => none
  | some c => if c = [] then none else some (String.mk c)

/-! ### The request payloads built by `login` / `refreshToken` -/

/-- The query parameters of the authorization URL, in source order. -/
def authorizeParams (challenge : String) : List (String × String) :=
  [("client_id", clientId), ("code_challenge", challenge),
   ("code_challenge_method", "S256"), ("response_type", "code"),
   ("redirect_uri", redirectUri), ("ui_locales", "en-US"),
   ("scope", scopeConfig)]

/-- The form body of the authorization_code token exchange. -/
def tokenExchangeBody (code verifier : String) : List (String × String) :=
  [("client_id", clientId), ("code", code),
   ("grant_type", "authorization_code"), ("redirect_uri", redirectUri),
   ("client_secret", clientSecret), ("code_verifier", verifier)]

/-! ### The login flow as a deterministic function over an environment -/

/-- The inputs the `login` flow consumes from the outside world: the clock,
the token-endpoint answers to the two grant types (`Except.error` covers
both a network failure and a provider `error` field, each of which throws),
and the URL the user pastes. -/
structure LoginEnv where
  now : Int
  refreshResponse : Except String Tokens
  exchangeResponse : Except String Tokens
  pastedUrl : String

/-- Externally visible events of one `login` run, in order.  `refreshCall`
and `exchangeCall` are HTTP requests to the token endpoint; `authPrompt`
is the printing of the authorization URL plus the blocking stdin read —
not a network call made by the program. -/
inductive Event where
  | refreshCall (refresh_token : Option String)
  | authPrompt (params : List (String × String))
  | exchangeCall (body : List (String × String))
  deriving Repr, DecidableEq

/-- Whether an event is an HTTP request issued by the program. -/
def Event.isNetworkCall : Event → Bool
  | .refreshCall _ => true
  | .exchangeCall _ => true
  | .authPrompt _ => false

/-- Outcome of `login`: a resolved bundle, or `process.exit(1)` carrying
the logged error message. -/
inductive LoginResult where
  | success (t : Tokens)
  | exitFailure (msg : String)
  deriving Repr, DecidableEq

/-- The interactive part of `login`: generate verifier and challenge,
present the authorization URL, read the pasted redirect URL, extract the
code, exchange it (resupplying the verifier), persist, resolve.  A missing
code throws the `No code found` error; any throw is caught and ends in
`process.exit(1)`. -/
def interactiveLogin (env : LoginEnv) (rnd : List Nat) (fs : Option Tokens) :
    LoginResult × Option Tokens × List Event :=
  let verifier := generateVerifier rnd
  let challenge := generateChallenge verifier
  let promptEv := Event.authPrompt (authorizeParams challenge)
  match extractCode env.pastedUrl with
  | none => (.exitFailure "No code found", fs, [promptEv])
  | some code =>
      match env.exchangeResponse with
      | .error e =>
          (.exitFailure e, fs,
           [promptEv, .exchangeCall (tokenExchangeBody code verifier)])
      | .ok data =>
          let (saved, fs') := saveTokensFs env.now data fs
          (.success saved, fs',
           [promptEv, .exchangeCall (tokenExchangeBody code verifier)])

/-- Models `login`: use the persisted bundle while it is at least 60 s from
expiry; otherwise try a refresh_token grant, falling back to the
interactive flow when the refresh throws; with no persisted bundle, go
interactive directly. -/
def login (env : LoginEnv) (rnd : List Nat) (fs : Option Tokens) :
    LoginResult × Option Tokens × List Event :=
  match loadTokens fs with
  | some t =>
      if env.now < t.expires_at - 60000 then
        (.success t, fs, [])
      else
        match env.refreshResponse with
        | .ok data =>
            let (saved, fs') := saveTokensFs env.now data fs
            (.success saved, fs', [.refreshCall t.refresh_token])
        | .error _ =>
            let (r, fs', evs) := interactiveLogin env rnd fs
            (r, fs', Event.refreshCall t.refresh_token :: evs)
  | none => interactiveLogin env rnd fs

/-! ### Devices, topics and command payloads -/

/-- A device entry as returned by the device-listing endpoint (the fields
the program reads). -/
structure Device where
  thingName : String
  friendlyName : String
  deriving Repr, DecidableEq

/-- Models the selection of the first listed device: the first
device of the sequence, when there is one. -/
def resolveDevice (devices : List Device) : Option Device := devices.head?

/-- The shadow-update topic of a device. -/
def shadowTopic (thingName : String) : String :=
  "$aws/things/" ++ thingName ++ "/shadow/update"

/-- The direct-command topic of a device. -/
def ncpTopic (thingName : String) : String :=
  "da_ctrl/" ++ thingName ++ "/to_ncp"

/-- The shadow-update document `{state:{desired:{powerOn:<bool>}}}`,
with the JSON nesting made explicit. -/
structure DesiredState where
  powerOn : Bool
  deriving Repr, DecidableEq

structure ShadowState where
  desired : DesiredState
  deriving Repr, DecidableEq

structure ShadowDoc where
  state : ShadowState
  deriving Repr, DecidableEq

/-- The payload of the `setMode` direct command. -/
structure NcpData where
  portName : String
  properties : List (String × Nat)
  deriving Repr, DecidableEq

structure NcpPayload where
  cid : String
  time : String
  type : String
  cn : String
  ct : String
  data : NcpData
  deriving Repr, DecidableEq

/-- The payload `setMode` builds; `cid` is the hex rendering of
`randomBytes(4)`
and `time` is `getTimestamp()`, both passed in explicitly. -/
def setModePayload (cid time : String) (value : Nat) : NcpPayload :=
  { cid := cid, time := time, type := "command", cn := "setPort",
    ct := "mobile",
    data := { portName := "Control", properties := [("D0310C", value)] } }

/-- Models `setMode`: publish the direct command on the `to_ncp` topic of
the device.
The returned pair is (topic, payload) of the single publish. -/
def setMode (thingName cid time : String) (value : Nat) : String × NcpPayload :=
  (ncpTopic thingName, setModePayload cid time value)

/-- A publish issued by the web-request handler. -/
inductive Publish where
  | shadow (topic : String) (doc : ShadowDoc)
  | ncp (topic : String) (payload : NcpPayload)
  deriving Repr, DecidableEq

/-- The request dispatch of the web server: the publishes issued for a given
pathname, in order.  Each `client.publish` is fire-and-forget — the
handler issues it and proceeds without awaiting any acknowledgement, which
is why the result is just the list of publishes. -/
def handleRequest (thingName cid time : String) (pathname : String) :
    List Publish :=
  if pathname = "/on" then
    [.shadow (shadowTopic thingName) ⟨⟨⟨true⟩⟩⟩]
  else if pathname = "/off" then
    [.shadow (shadowTopic thingName) ⟨⟨⟨false⟩⟩⟩]
  else if pathname = "/auto" then
    [.ncp (setMode thingName cid time 0).1 (setMode thingName cid time 0).2]
  else if pathname = "/low" then
    [.ncp (setMode thingName cid time 17).1 (setMode thingName cid time 17).2]
  else if pathname = "/medium" then
    [.ncp (setMode thingName cid time 1).1 (setMode thingName cid time 1).2]
  else if pathname = "/high" then
    [.ncp (setMode thingName cid time 18).1 (setMode thingName cid time 18).2]
  else []

/-- The closed pathname → mode-value mapping of the dispatch chain. -/
def routeModeValue : String → Option Nat
  | "/auto" => some 0
  | "/low" => some 17
  | "/medium" => some 1
  | "/high" => some 18
  | _ => none

/-! ### The `main` pipeline after a successful login -/

/-- The externally visible steps of `main` between login and the MQTT
session. -/
inductive MainEvent where
  | apiGetUserId
  | apiGetDevices
  | apiGetSignature
  | mqttConnect (clientId : String)
  | logError (msg : String)
  deriving Repr, DecidableEq

/-- How `main` ends: a clean return, or an exception caught by the outer
`try`/`catch` (which logs it — nothing escapes the process). -/
inductive MainResult where
  | completed
  | errorCaught (msg : String)
  deriving Repr, DecidableEq

/-- Models `main` after `login` succeeded: check the id token, resolve the user
id, list devices, select `devices[0]`; an empty list logs
`No devices found.` and returns cleanly, otherwise fetch the signature
and connect with client id `{userId}_{uuid}`.  The device list, user id,
and uuid are the successful responses of the respective collaborators. -/
def mainFlow (tokens : Tokens) (userId : String) (devices : List Device)
    (uuid : String) : List MainEvent × MainResult :=
  if jsStrTruthy tokens.id_token = false then
    ([], .errorCaught "ID Token missing. Delete philips_tokens.json and login again.")
  else
    match resolveDevice devices with
    | none =>
        ([.apiGetUserId, .apiGetDevices, .logError "No devices found."],
         .completed)
    | some _ =>
        ([.apiGetUserId, .apiGetDevices, .apiGetSignature,
          .mqttConnect (userId ++ "_" ++ uuid)], .completed)

/-! ### Format checkers used in the claims -/

/-- Second-precision ISO-8601 UTC timestamp: `YYYY-MM-DDTHH:mm:ssZ`. -/
def isoSecondsFormat (s : String) : Bool :=
  s.data.length = 20 &&
  (List.range 20).all (fun i =>
    let c := s.data.getD i ' '
    if i = 4 || i = 7 then c = '-'
    else if i = 10 then c = 'T'
    else if i = 13 || i = 16 then c = ':'
    else if i = 19 then c = 'Z'
    else c.isDigit)

/-- The date-time prefix `YYYY-MM-DDTHH:mm:ss` (19 characters). -/
def isoDateTime19 (s : List Char) : Bool :=
  s.length = 19 &&
  (List.range 19).all (fun i =>
    let c := s.getD i ' '
    if i = 4 || i = 7 then c = '-'
    else if i = 10 then c = 'T'
    else if i = 13 || i = 16 then c = ':'
    else c.isDigit)

/-- An 8-character lowercase-hex correlation id. -/
def isHexDigit (c : Char) : Bool :=
  ('0' ≤ c && c ≤ '9') || ('a' ≤ c && c ≤ 'f')

/-! ### Supporting lemmas -/

theorem tbl_ne_pad (n : Nat) : tbl n ≠ '=' := by
  have h : ∀ i, i < 64 → b64chars.getD i 'A' ≠ '=' := by decide
  exact h _ (Nat.mod_lt _ (by decide))

theorem b64core_length (l : List Nat) :
    (b64core l).length = 4 * ((l.length + 2) / 3) := by
  induction l using b64core.induct with
  | case1 => simp [b64core]
  | case2 a => simp [b64core]
  | case3 a b => simp [b64core]
  | case4 a b c rest ih =>
      simp only [b64core, List.length_cons, ih]
      omega

theorem b64core_count (l : List Nat) :
    (b64core l).count '=' = (3 - l.length % 3) % 3 := by
  induction l using b64core.induct with
  | case1 => rfl
  | case2 a =>
      rw [show b64core [a] =
        [tbl (a >>> 2), tbl ((a &&& 3) <<< 4), '=', '='] from rfl]
      simp [List.count_cons, tbl_ne_pad]
  | case3 a b =>
      rw [show b64core [a, b] =
        [tbl (a >>> 2), tbl (((a &&& 3) <<< 4) ||| (b >>> 4)),
         tbl ((b &&& 15) <<< 2), '='] from rfl]
      simp [List.count_cons, tbl_ne_pad]
  | case4 a b c rest ih =>
      simp only [b64core, List.count_cons, ih, List.length_cons]
      simp [tbl_ne_pad]
      omega

theorem b64urlRepl_eq_pad (c : Char) : (b64urlRepl c = '=') ↔ (c = '=') := by
  unfold b64urlRepl
  split_ifs with h1 h2
  · subst h1; constructor <;> (intro h; exact absurd h (by decide))
  · subst h2; constructor <;> (intro h; exact absurd h (by decide))
  · exact Iff.rfl

theorem b64urlRepl_beq_pad (c : Char) : (b64urlRepl c == '=') = (c == '=') := by
  by_cases h : c = '='
  · subst h; decide
  · have h1 : b64urlRepl c ≠ '=' := fun hc => h ((b64urlRepl_eq_pad c).mp hc)
    rw [beq_eq_false_iff_ne.mpr h1, beq_eq_false_iff_ne.mpr h]

theorem count_map_repl (l : List Char) :
    (l.map b64urlRepl).count '=' = l.count '=' := by
  induction l with
  | nil => rfl
  | cons c cs ih =>
      simp only [List.map_cons, List.count_cons, ih, b64urlRepl_beq_pad]

theorem length_filter_ne_pad (l : List Char) :
    (l.filter (fun c => c ≠ '=')).length = l.length - l.count '=' := by
  induction l with
  | nil => rfl
  | cons c cs ih =>
      have hle : cs.count '=' ≤ cs.length := List.count_le_length _ _
      by_cases h : c = '='
      · simp [List.filter_cons, List.count_cons, h] at ih ⊢
        omega
      · simp [List.filter_cons, List.count_cons, h] at ih ⊢
        omega

theorem base64URLEncode_length_of_32 (l : List Nat) (h : l.length = 32) :
    (base64URLEncode l).length = 43 := by
  have hcore : (b64core l).length = 44 := by rw [b64core_length, h]
  have hcount : (b64core l).count '=' = 1 := by rw [b64core_count, h]
  show (((b64core l).map b64urlRepl).filter (fun c => c ≠ '=')).length = 43
  rw [length_filter_ne_pad, count_map_repl, List.length_map, hcore, hcount]

theorem hexChar_isHex (n : Nat) : isHexDigit (hexChar n) = true := by
  have hall : ∀ i, i < 16 →
      isHexDigit ("0123456789abcdef".data.getD i '0') = true := by decide
  show isHexDigit ("0123456789abcdef".data.getD (n % 16) '0') = true
  exact hall (n % 16) (Nat.mod_lt _ (by decide))

theorem splitOnDot_append (d r : List Char) (h : '.' ∉ d) :
    splitOnDot (d ++ '.' :: r) = d := by
  induction d with
  | nil => simp [splitOnDot]
  | cons c cs ih =>
      have hc : c ≠ '.' := by intro hc; exact h (hc ▸ List.mem_cons_self c cs)
      have hcs : '.' ∉ cs := fun hm => h (List.mem_cons_of_mem c hm)
      simp [splitOnDot, hc, ih hcs]

theorem isoSeconds_of_dateTime19 (d : List Char) (hd : isoDateTime19 d = true) :
    isoSecondsFormat (String.mk (d ++ ['Z'])) = true := by
  simp only [isoDateTime19, Bool.and_eq_true, List.all_eq_true, List.mem_range,
    decide_eq_true_eq] at hd
  obtain ⟨hlen, hall⟩ := hd
  have hgetD : ∀ j, j < 19 → (d ++ ['Z']).getD j ' ' = d.getD j ' ' := by
    intro j hj
    exact List.getD_append _ _ _ _ (by omega)
  have hz : (d ++ ['Z']).getD 19 ' ' = 'Z' := by
    rw [List.getD_append_right _ _ _ _ (by omega), hlen]
    rfl
  simp only [isoSecondsFormat, Bool.and_eq_true, List.all_eq_true,
    List.mem_range, decide_eq_true_eq]
  refine ⟨by simp [hlen], ?_⟩
  intro i hi
  show (if (decide (i = 4) || decide (i = 7)) = true then
          decide ((d ++ ['Z']).getD i ' ' = '-')
        else if i = 10 then decide ((d ++ ['Z']).getD i ' ' = 'T')
        else if (decide (i = 13) || decide (i = 16)) = true then
          decide ((d ++ ['Z']).getD i ' ' = ':')
        else if i = 19 then decide ((d ++ ['Z']).getD i ' ' = 'Z')
        else ((d ++ ['Z']).getD i ' ').isDigit) = true
  by_cases h19 : i = 19
  · subst h19
    rw [hz]
    decide
  · have hi19 : i < 19 := by omega
    rw [hgetD i hi19, if_neg h19]
    exact hall i hi19

/-! ### Concrete fixtures used by the witness theorems -/

/-- A bundle far from expiry. -/
def tokFresh : Tokens :=
  { access_token := "a", id_token := some "i", refresh_token := some "r",
    expires_in := some 3600, expires_at := 10000000 }

/-- A bundle already expired at `now = 1000000`. -/
def tokExpired : Tokens :=
  { access_token := "a", id_token := some "i", refresh_token := some "rt0",
    expires_in := some 3600, expires_at := 50000 }

/-- A sample token-endpoint response. -/
def respData : Tokens :=
  { access_token := "a2", id_token := some "i2", refresh_token := some "r2",
    expires_in := some 100, expires_at := 777 }

/-- A refresh response that omits `refresh_token` and `expires_in`. -/
def respBare : Tokens :=
  { access_token := "n", id_token := none, refresh_token := none,
    expires_in := none, expires_at := 9 }

/-- An environment whose user pastes a redirect URL without a `code`. -/
def envNoCode : LoginEnv :=
  { now := 0, refreshResponse := .error "e", exchangeResponse := .ok respData,
    pastedUrl := "com.philips.air://loginredirect?state=x" }

/-- An environment whose refresh_token grant succeeds. -/
def envRefreshOk : LoginEnv :=
  { now := 1000000, refreshResponse := .ok respData,
    exchangeResponse := .error "e", pastedUrl := "" }

/-- An environment where the refresh grant and the interactive exchange
both fail. -/
def envAllFail : LoginEnv :=
  { now := 1000000, refreshResponse := .error "bad refresh",
    exchangeResponse := .error "bad exchange",
    pastedUrl := "com.philips.air://loginredirect?state=x" }

/-! ### Claims -/

/-- C1: for every persisted credential bundle whose `expires_at` exceeds the
current time plus 60 seconds, `login` returns the bundle unchanged, leaves
the file untouched, and its event trace is empty — in particular it makes
zero network calls. -/
theorem C1_valid_bundle_unchanged_no_network
    (env : LoginEnv) (rnd : List Nat) (t : Tokens)
    (hvalid : env.now + 60000 < t.expires_at) :
    login env rnd (some t) = (.success t, some t, []) ∧
    ((login env rnd (some t)).2.2.countP Event.isNetworkCall) = 0 := by
  have h : env.now < t.expires_at - 60000 := by omega
  have heq : login env rnd (some t) = (.success t, some t, []) := by
    simp [login, loadTokens, h]
  exact ⟨heq, by rw [heq]; rfl⟩

/-- Witness for C1 at a concrete bundle and clock. -/
theorem C1_valid_bundle_unchanged_no_network_witness :
    login { now := 0, refreshResponse := .error "e", exchangeResponse := .error "e",
            pastedUrl := "" } [] (some tokFresh) =
      (.success tokFresh, some tokFresh, []) ∧
    ((login { now := 0, refreshResponse := .error "e", exchangeResponse := .error "e",
              pastedUrl := "" } [] (some tokFresh)).2.2.countP Event.isNetworkCall) = 0 :=
  C1_valid_bundle_unchanged_no_network _ [] tokFresh (by decide)

set_option maxRecDepth 4000 in
/-- C3: the PKCE pair is verifier = unpadded base64url of the 32 random
bytes and challenge = unpadded base64url of SHA-256 of the verifier; the
authorize-endpoint query carries the challenge under `code_challenge` and
never the verifier — no parameter is keyed `code_verifier`, and every
parameter other than `code_challenge` differs from the verifier (their
values have length ≠ 43, the length of a base64url encoding of 32 bytes);
the token-exchange body resupplies the same verifier as `code_verifier`. -/
theorem C3_pkce_pair_and_param_handling
    (rnd : List Nat) (hlen : rnd.length = 32) :
    generateVerifier rnd = base64URLEncode rnd ∧
    generateChallenge (generateVerifier rnd) =
      base64URLEncode (sha256 (strBytes (generateVerifier rnd))) ∧
    (∀ p ∈ authorizeParams (generateChallenge (generateVerifier rnd)),
      p.1 ≠ "code_verifier") ∧
    List.lookup "code_challenge"
        (authorizeParams (generateChallenge (generateVerifier rnd))) =
      some (generateChallenge (generateVerifier rnd)) ∧
    (∀ p ∈ authorizeParams (generateChallenge (generateVerifier rnd)),
      p.1 ≠ "code_challenge" → p.2 ≠ generateVerifier rnd) ∧
    (∀ code, List.lookup "code_verifier"
        (tokenExchangeBody code (generateVerifier rnd)) =
      some (generateVerifier rnd)) := by
  have hv : (generateVerifier rnd).length = 43 :=
    base64URLEncode_length_of_32 rnd hlen
  refine ⟨rfl, rfl, ?_, rfl, ?_, fun code => rfl⟩
  · intro p hp
    simp only [authorizeParams, List.mem_cons, List.not_mem_nil, or_false] at hp
    rcases hp with h | h | h | h | h | h | h <;> (subst h; simp)
  · intro p hp hne
    simp only [authorizeParams, List.mem_cons, List.not_mem_nil, or_false] at hp
    rcases hp with h | h | h | h | h | h | h
    · subst h
      intro heq
      have hl := congrArg String.length heq
      rw [hv] at hl
      exact absurd hl (by decide)
    · subst h
      exact absurd rfl hne
    · subst h
      intro heq
      have hl := congrArg String.length heq
      rw [hv] at hl
      exact absurd hl (by decide)
    · subst h
      intro heq
      have hl := congrArg String.length heq
      rw [hv] at hl
      exact absurd hl (by decide)
    · subst h
      intro heq
      have hl := congrArg String.length heq
      rw [hv] at hl
      exact absurd hl (by decide)
    · subst h
      intro heq
      have hl := congrArg String.length heq
      rw [hv] at hl
      exact absurd hl (by decide)
    · subst h
      intro heq
      have hl := congrArg String.length heq
      rw [hv] at hl
      exact absurd hl (by decide)

/-- Witness for C3 on a concrete 32-byte random input. -/
theorem C3_pkce_pair_and_param_handling_witness :
    generateVerifier (List.range 32) = base64URLEncode (List.range 32) ∧
    generateChallenge (generateVerifier (List.range 32)) =
      base64URLEncode (sha256 (strBytes (generateVerifier (List.range 32)))) ∧
    (∀ p ∈ authorizeParams (generateChallenge (generateVerifier (List.range 32))),
      p.1 ≠ "code_verifier") ∧
    List.lookup "code_challenge"
        (authorizeParams (generateChallenge (generateVerifier (List.range 32)))) =
      some (generateChallenge (generateVerifier (List.range 32))) ∧
    (∀ p ∈ authorizeParams (generateChallenge (generateVerifier (List.range 32))),
      p.1 ≠ "code_challenge" → p.2 ≠ generateVerifier (List.range 32)) ∧
    (∀ code, List.lookup "code_verifier"
        (tokenExchangeBody code (generateVerifier (List.range 32))) =
      some (generateVerifier (List.range 32))) :=
  C3_pkce_pair_and_param_handling (List.range 32) (by decide)

/-- C4: `setMode` publishes a direct command on
`da_ctrl/{thingName}/to_ncp` whose payload carries an 8-hex-digit `cid`
(from 4 random bytes), a second-precision ISO-8601 UTC `time`, type
`command`, cn `setPort`, ct `mobile`, `data.portName` `Control`, and the
single property key `D0310C` mapped by the closed enumeration auto→0,
low→17, medium→1, high→18 of the dispatch chain. -/
theorem C4_setMode_direct_command
    (tn cid time : String) (b0 b1 b2 b3 : Nat) (d r : List Char)
    (hcid : cid = toHex [b0, b1, b2, b3])
    (htime : time = getTimestamp (String.mk (d ++ '.' :: r)))
    (hd : isoDateTime19 d = true) (hdot : '.' ∉ d) :
    cid.length = 8 ∧
    (∀ c ∈ cid.data, isHexDigit c = true) ∧
    isoSecondsFormat time = true ∧
    handleRequest tn cid time "/auto" =
      [Publish.ncp ("da_ctrl/" ++ tn ++ "/to_ncp")
        { cid := cid, time := time, type := "command", cn := "setPort",
          ct := "mobile",
          data := { portName := "Control", properties := [("D0310C", 0)] } }] ∧
    handleRequest tn cid time "/low" =
      [Publish.ncp ("da_ctrl/" ++ tn ++ "/to_ncp")
        { cid := cid, time := time, type := "command", cn := "setPort",
          ct := "mobile",
          data := { portName := "Control", properties := [("D0310C", 17)] } }] ∧
    handleRequest tn cid time "/medium" =
      [Publish.ncp ("da_ctrl/" ++ tn ++ "/to_ncp")
        { cid := cid, time := time, type := "command", cn := "setPort",
          ct := "mobile",
          data := { portName := "Control", properties := [("D0310C", 1)] } }] ∧
    handleRequest tn cid time "/high" =
      [Publish.ncp ("da_ctrl/" ++ tn ++ "/to_ncp")
        { cid := cid, time := time, type := "command", cn := "setPort",
          ct := "mobile",
          data := { portName := "Control", properties := [("D0310C", 18)] } }] := by
  have htimeZ : time = String.mk (d ++ ['Z']) := by
    rw [htime]
    show String.mk (splitOnDot (d ++ '.' :: r) ++ ['Z']) = String.mk (d ++ ['Z'])
    rw [splitOnDot_append d r hdot]
  refine ⟨?_, ?_, ?_, ?_, ?_, ?_, ?_⟩
  · rw [hcid]; rfl
  · rw [hcid]
    intro c hc
    simp [toHex] at hc
    rcases hc with h | h | h | h | h | h | h | h <;>
      (subst h; exact hexChar_isHex _)
  · rw [htimeZ]
    exact isoSeconds_of_dateTime19 d hd
  all_goals simp [handleRequest, setMode, setModePayload, ncpTopic]

/-- Witness for C4 at concrete bytes, clock and thing name. -/
theorem C4_setMode_direct_command_witness :
    ("deadbeef" : String).length = 8 ∧
    (∀ c ∈ ("deadbeef" : String).data, isHexDigit c = true) ∧
    isoSecondsFormat "2026-01-02T03:04:05Z" = true ∧
    handleRequest "acd123" "deadbeef" "2026-01-02T03:04:05Z" "/auto" =
      [Publish.ncp ("da_ctrl/" ++ "acd123" ++ "/to_ncp")
        { cid := "deadbeef", time := "2026-01-02T03:04:05Z", type := "command",
          cn := "setPort", ct := "mobile",
          data := { portName := "Control", properties := [("D0310C", 0)] } }] ∧
    handleRequest "acd123" "deadbeef" "2026-01-02T03:04:05Z" "/low" =
      [Publish.ncp ("da_ctrl/" ++ "acd123" ++ "/to_ncp")
        { cid := "deadbeef", time := "2026-01-02T03:04:05Z", type := "command",
          cn := "setPort", ct := "mobile",
          data := { portName := "Control", properties := [("D0310C", 17)] } }] ∧
    handleRequest "acd123" "deadbeef" "2026-01-02T03:04:05Z" "/medium" =
      [Publish.ncp ("da_ctrl/" ++ "acd123" ++ "/to_ncp")
        { cid := "deadbeef", time := "2026-01-02T03:04:05Z", type := "command",
          cn := "setPort", ct := "mobile",
          data := { portName := "Control", properties := [("D0310C", 1)] } }] ∧
    handleRequest "acd123" "deadbeef" "2026-01-02T03:04:05Z" "/high" =
      [Publish.ncp ("da_ctrl/" ++ "acd123" ++ "/to_ncp")
        { cid := "deadbeef", time := "2026-01-02T03:04:05Z", type := "command",
          cn := "setPort", ct := "mobile",
          data := { portName := "Control", properties := [("D0310C", 18)] } }] :=
  C4_setMode_direct_command "acd123" "deadbeef" "2026-01-02T03:04:05Z"
    222 173 190 239 ("2026-01-02T03:04:05".data) ("123Z".data)
    (by decide) (by decide) (by decide) (by decide)

/-- C5: `/on` and `/off` publish exactly `{state:{desired:{powerOn:bool}}}`
to `$aws/things/{thingName}/shadow/update` of the resolved (first-listed)
device; the handler issues the publish and returns without awaiting any
acknowledgement (its result is just the publish list). -/
theorem C5_power_publishes_shadow_desired
    (d : Device) (rest : List Device) (cid time : String) :
    resolveDevice (d :: rest) = some d ∧
    handleRequest d.thingName cid time "/on" =
      [Publish.shadow ("$aws/things/" ++ d.thingName ++ "/shadow/update")
        { state := { desired := { powerOn := true } } }] ∧
    handleRequest d.thingName cid time "/off" =
      [Publish.shadow ("$aws/things/" ++ d.thingName ++ "/shadow/update")
        { state := { desired := { powerOn := false } } }] := by
  refine ⟨rfl, ?_, ?_⟩ <;> simp [handleRequest, shadowTopic]

/-- C7: an empty device list is logged as `No devices found.` and `main`
returns cleanly through its `try` block: no signature retrieval, no MQTT
connection attempt, and no exception escapes. -/
theorem C7_empty_device_list_nonfatal (tokens : Tokens) (userId uuid : String)
    (hid : jsStrTruthy tokens.id_token = true) :
    mainFlow tokens userId [] uuid =
      ([.apiGetUserId, .apiGetDevices, .logError "No devices found."],
       .completed) ∧
    MainEvent.apiGetSignature ∉ (mainFlow tokens userId [] uuid).1 ∧
    (∀ c, MainEvent.mqttConnect c ∉ (mainFlow tokens userId [] uuid).1) := by
  have heq : mainFlow tokens userId [] uuid =
      ([.apiGetUserId, .apiGetDevices, .logError "No devices found."],
       .completed) := by
    simp [mainFlow, resolveDevice, hid]
  refine ⟨heq, ?_, ?_⟩ <;> simp [heq]

/-- Witness for C7 at a concrete bundle. -/
theorem C7_empty_device_list_nonfatal_witness :
    mainFlow tokFresh "uid" [] "uuid" =
      ([.apiGetUserId, .apiGetDevices, .logError "No devices found."],
       .completed) ∧
    MainEvent.apiGetSignature ∉ (mainFlow tokFresh "uid" [] "uuid").1 ∧
    (∀ c, MainEvent.mqttConnect c ∉ (mainFlow tokFresh "uid" [] "uuid").1) :=
  C7_empty_device_list_nonfatal tokFresh "uid" "uuid" (by decide)

/-- C9: persisting a bundle with `saveTokens` and loading it back yields a
bundle with identical `access_token`, `id_token` and `refresh_token`. -/
theorem C9_persist_load_roundtrip (now : Int) (t : Tokens) (fs : Option Tokens) :
    loadTokens (saveTokensFs now t fs).2 = some (saveTokensFs now t fs).1 ∧
    (saveTokensFs now t fs).1.access_token = t.access_token ∧
    (saveTokensFs now t fs).1.id_token = t.id_token ∧
    (saveTokensFs now t fs).1.refresh_token = t.refresh_token := by
  simp [saveTokensFs, saveTokens, loadTokens]

/-- C10: `saveTokens` replaces the credential file wholesale — the written
bundle is a function of the new response alone, identical for any prior
file content; a field absent from the response (e.g. a `refresh_token` a
refresh response omits) is absent from the file afterwards, and a missing
`expires_in` derives `expires_at` as write time plus 3600 seconds. -/
theorem C10_wholesale_replace (now : Int) (t : Tokens) (fs1 fs2 : Option Tokens)
    (hrt : t.refresh_token = none) (hei : t.expires_in = none) :
    (saveTokensFs now t fs1).2 = some (saveTokens now t) ∧
    (saveTokensFs now t fs1).2 = (saveTokensFs now t fs2).2 ∧
    (saveTokens now t).refresh_token = none ∧
    (saveTokens now t).expires_at = now + 3600 * 1000 := by
  refine ⟨rfl, rfl, ?_, ?_⟩
  · simp [saveTokens, hrt]
  · simp [saveTokens, jsOrDefault, hei]

/-- Any successful outcome of the interactive flow is a bundle produced by
`saveTokens` at the current clock, already written to the file. -/
theorem interactiveLogin_success (env : LoginEnv) (rnd : List Nat)
    (fs : Option Tokens) (u : Tokens) (fs' : Option Tokens) (evs : List Event)
    (h : interactiveLogin env rnd fs = (.success u, fs', evs)) :
    fs' = some u ∧
    u.expires_at = env.now + jsOrDefault u.expires_in 3600 * 1000 := by
  unfold interactiveLogin at h
  split at h
  · simp at h
  · split at h
    · simp at h
    · rename_i data heq
      simp only [saveTokensFs, Prod.mk.injEq, LoginResult.success.injEq] at h
      obtain ⟨hu, hfs, -⟩ := h
      subst hu
      refine ⟨hfs.symm, ?_⟩
      simp [saveTokens]

/-- C6: a pasted redirect URL whose query string lacks a `code` parameter
makes the interactive login fail with the `No code found` error (the
model of `AuthError(MissingCode)`; the process exits) and the flow issues
no token-endpoint request — its trace is the authorization prompt alone. -/
theorem C6_missing_code_no_token_call
    (env : LoginEnv) (rnd : List Nat) (fs : Option Tokens)
    (hnc : extractCode env.pastedUrl = none) :
    interactiveLogin env rnd fs =
      (.exitFailure "No code found", fs,
       [.authPrompt (authorizeParams (generateChallenge (generateVerifier rnd)))]) ∧
    (∀ b, Event.exchangeCall b ∉ (interactiveLogin env rnd fs).2.2) := by
  have heq : interactiveLogin env rnd fs =
      (.exitFailure "No code found", fs,
       [.authPrompt (authorizeParams (generateChallenge (generateVerifier rnd)))]) := by
    simp [interactiveLogin, hnc]
  refine ⟨heq, ?_⟩
  intro b
  rw [heq]
  simp

/-- Witness for C6 at a concrete redirect URL carrying no `code`. -/
theorem C6_missing_code_no_token_call_witness :
    interactiveLogin envNoCode [] none =
      (.exitFailure "No code found", none,
       [.authPrompt (authorizeParams (generateChallenge (generateVerifier [])))]) ∧
    (∀ b, Event.exchangeCall b ∉ (interactiveLogin envNoCode [] none).2.2) :=
  C6_missing_code_no_token_call envNoCode [] none (by decide)

/-- C2: for a persisted bundle with `now ≥ expires_at − 60s`, `login`
attempts the refresh_token grant first — it is the head of the trace,
before any interactive step; when the refresh fails, exactly one
fall-back interactive login occurs (one authorization prompt, and the
refresh is not retried), and when that also fails the outcome is the
terminal failure (`process.exit(1)` carrying the error, the model of the
terminal `AuthError`), with no further attempt in the trace. -/
theorem C2_expired_refresh_first_single_fallback
    (env : LoginEnv) (rnd : List Nat) (t : Tokens) (e : String)
    (hexp : t.expires_at - 60000 ≤ env.now)
    (hrf : env.refreshResponse = .error e)
    (hfail : extractCode env.pastedUrl = none ∨
             ∃ e2, env.exchangeResponse = .error e2) :
    (login env rnd (some t)).2.2.head? = some (.refreshCall t.refresh_token) ∧
    (login env rnd (some t)).2.2.countP
      (fun ev => match ev with | .authPrompt _ => true | _ => false) = 1 ∧
    (login env rnd (some t)).2.2.countP
      (fun ev => match ev with | .refreshCall _ => true | _ => false) = 1 ∧
    (∃ msg, (login env rnd (some t)).1 = .exitFailure msg) := by
  have hcond : ¬ (env.now < t.expires_at - 60000) := by omega
  cases hc : extractCode env.pastedUrl with
  | none =>
      have heq : login env rnd (some t) =
          (.exitFailure "No code found", some t,
           [.refreshCall t.refresh_token,
            .authPrompt (authorizeParams (generateChallenge (generateVerifier rnd)))]) := by
        simp [login, loadTokens, hcond, hrf, interactiveLogin, hc]
      rw [heq]
      exact ⟨rfl, rfl, rfl, ⟨"No code found", rfl⟩⟩
  | some code =>
      obtain ⟨e2, hex⟩ : ∃ e2, env.exchangeResponse = .error e2 := by
        rcases hfail with hnone | hx
        · rw [hc] at hnone; cases hnone
        · exact hx
      have heq : login env rnd (some t) =
          (.exitFailure e2, some t,
           [.refreshCall t.refresh_token,
            .authPrompt (authorizeParams (generateChallenge (generateVerifier rnd))),
            .exchangeCall (tokenExchangeBody code (generateVerifier rnd))]) := by
        simp [login, loadTokens, hcond, hrf, interactiveLogin, hc, hex]
      rw [heq]
      exact ⟨rfl, rfl, rfl, ⟨e2, rfl⟩⟩

/-- Witness for C2: an expired bundle, a failing refresh, and a pasted
URL without a `code`. -/
theorem C2_expired_refresh_first_single_fallback_witness :
    (login envAllFail [] (some tokExpired)).2.2.head? =
      some (.refreshCall tokExpired.refresh_token) ∧
    (login envAllFail [] (some tokExpired)).2.2.countP
      (fun ev => match ev with | .authPrompt _ => true | _ => false) = 1 ∧
    (login envAllFail [] (some tokExpired)).2.2.countP
      (fun ev => match ev with | .refreshCall _ => true | _ => false) = 1 ∧
    (∃ msg, (login envAllFail [] (some tokExpired)).1 = .exitFailure msg) :=
  C2_expired_refresh_first_single_fallback envAllFail [] tokExpired
    "bad refresh" (by decide) rfl (Or.inl (by decide))

/-- C8: whenever `login` succeeds after having gone to the network (a
non-empty trace — an authorization_code or refresh_token exchange), the
returned bundle is already persisted in the credential file, and its
`expires_at` is derived as the write time plus `expires_in` (default 3600)
seconds in milliseconds; the server-supplied `expires_at`, had there been
one, is discarded — `saveTokens` is invariant in it. -/
theorem C8_exchange_persists_derived_expiry
    (env : LoginEnv) (rnd : List Nat) (fs : Option Tokens)
    (u : Tokens) (fs' : Option Tokens) (evs : List Event)
    (h : login env rnd fs = (.success u, fs', evs)) (hne : evs ≠ []) :
    fs' = some u ∧
    u.expires_at = env.now + jsOrDefault u.expires_in 3600 * 1000 ∧
    (∀ now data a, saveTokens now { data with expires_at := a } =
      saveTokens now data) := by
  have hsv : ∀ (now : Int) (data : Tokens) (a : Int),
      saveTokens now { data with expires_at := a } = saveTokens now data := by
    intro now data a
    rfl
  have hmain : fs' = some u ∧
      u.expires_at = env.now + jsOrDefault u.expires_in 3600 * 1000 := by
    cases fs with
    | none =>
        exact interactiveLogin_success env rnd none u fs' evs
          (by simpa [login, loadTokens] using h)
    | some t =>
        simp only [login, loadTokens] at h
        by_cases hcond : env.now < t.expires_at - 60000
        · rw [if_pos hcond] at h
          simp only [Prod.mk.injEq] at h
          exact absurd h.2.2.symm hne
        · rw [if_neg hcond] at h
          cases hr : env.refreshResponse with
          | ok data =>
              rw [hr] at h
              simp only [saveTokensFs, Prod.mk.injEq, LoginResult.success.injEq] at h
              obtain ⟨hu, hfs, -⟩ := h
              subst hu
              exact ⟨hfs.symm, by simp [saveTokens]⟩
          | error e =>
              rw [hr] at h
              rcases hil : interactiveLogin env rnd (some t) with ⟨r0, fs0, evs0⟩
              rw [hil] at h
              simp only [Prod.mk.injEq] at h
              obtain ⟨hr0, hfs0, hevs⟩ := h
              exact interactiveLogin_success env rnd (some t) u fs' evs0
                (by rw [hil, hr0, hfs0])
  exact ⟨hmain.1, hmain.2, hsv⟩

/-- Witness for C8 on a concrete successful refresh exchange. -/
theorem C8_exchange_persists_derived_expiry_witness :
    (saveTokensFs 1000000 respData (some tokExpired)).2 =
      some (saveTokensFs 1000000 respData (some tokExpired)).1 ∧
    (saveTokensFs 1000000 respData (some tokExpired)).1.expires_at =
      1000000 + jsOrDefault
        (saveTokensFs 1000000 respData (some tokExpired)).1.expires_in 3600 * 1000 ∧
    (∀ now data a, saveTokens now { data with expires_at := a } =
      saveTokens now data) := by
  have h := C8_exchange_persists_derived_expiry envRefreshOk [] (some tokExpired)
    (saveTokensFs 1000000 respData (some tokExpired)).1
    (saveTokensFs 1000000 respData (some tokExpired)).2
    [.refreshCall (some "rt0")] (by decide) (by decide)
  exact h

/-- Witness for C10: a refresh response that carries neither
`refresh_token` nor `expires_in`, over a previously populated file. -/
theorem C10_wholesale_replace_witness :
    (saveTokensFs 500 respBare (some tokFresh)).2 =
      some (saveTokens 500 respBare) ∧
    (saveTokensFs 500 respBare (some tokFresh)).2 =
      (saveTokensFs 500 respBare none).2 ∧
    (saveTokens 500 respBare).refresh_token = none ∧
    (saveTokens 500 respBare).expires_at = 500 + 3600 * 1000 :=
  C10_wholesale_replace 500 respBare (some tokFresh) none rfl rfl

end AirCli
